import Mathlib

/-!
# Verification of the SabPaisa QR backend core

Shallow embedding of the VPA codec (`src/services/vpaService.js`), the HDFC
webhook decoder/validator/handler (`src/routes/health.js`) and the transaction
reconciliation engine (`src/services/QRTransactionService.js`), together with
proofs and refutations of the specification's claims about them.

JavaScript numbers are modelled by `JSNum`: `NaN`, the two infinities, and
finite values carried as exact rationals (IEEE-754 rounding is abstracted away;
none of the verified claims depends on rounding).  JavaScript strings are Lean
`String`s.  Database effects are modelled by explicit state passing over a `DB`
record whose tables are association lists, and `await`-able collaborators
(decryption, the duplicate lookup, the wall clock) are explicit function
parameters of the handler.
-/

deriving instance DecidableEq for Except

namespace SabPaisa

/-- Model of a JavaScript number: `NaN`, `±Infinity`, or a finite value
(abstracted to an exact rational). -/
inductive JSNum where
  | nan
  | posInf
  | negInf
  | fin (q : ℚ)
deriving DecidableEq, Repr

/-- JavaScript `<` on numbers: any comparison involving `NaN` is false. -/
def jsLt : JSNum → JSNum → Bool
  | .nan, _ => false
  | _, .nan => false
  | .fin a, .fin b => decide (a < b)
  | .fin _, .posInf => true
  | .fin _, .negInf => false
  | .posInf, _ => false
  | .negInf, .negInf => false
  | .negInf, _ => true

/-- JavaScript `>`: `a > b` is `b < a`. -/
def jsGt (a b : JSNum) : Bool := jsLt b a

/-- JavaScript `+` on numbers (`NaN` is absorbing, `Infinity + -Infinity = NaN`). -/
def jsAdd : JSNum → JSNum → JSNum
  | .nan, _ => .nan
  | _, .nan => .nan
  | .posInf, .negInf => .nan
  | .negInf, .posInf => .nan
  | .posInf, _ => .posInf
  | _, .posInf => .posInf
  | .negInf, _ => .negInf
  | _, .negInf => .negInf
  | .fin a, .fin b => .fin (a + b)

/-- JavaScript truthiness of a number: `NaN` and `±0` are falsy. -/
def jsTruthy : JSNum → Bool
  | .nan => false
  | .fin q => decide (q ≠ 0)
  | _ => true

/-- JavaScript `v || 0` on a number `v`. -/
def jsOrZero (v : JSNum) : JSNum := if jsTruthy v then v else .fin 0

/-- Remove all factors `p` from `n`: returns the multiplicity and the cofactor. -/
def factorOut (p : ℕ) (n : ℕ) : ℕ × ℕ :=
  if h : 2 ≤ p ∧ 2 ≤ n ∧ n % p = 0 then
    let r := factorOut p (n / p)
    (r.1 + 1, r.2)
  else (0, n)
termination_by n
decreasing_by exact Nat.div_lt_self (by omega) (by omega)

/-- Decimal rendering of a rational whose reduced denominator is `2^a * 5^b`
(the only finite values produced by the embedded `parseFloat`).  Other
denominators fall back to Lean's `Rat` rendering; this is an explicit
abstraction of JavaScript number-to-string conversion, which no claim
depends on beyond determinism.  JavaScript's exponent-notation thresholds
(`≥ 1e21`, `< 1e-6`) are not modelled. -/
def ratToJSString (q : ℚ) : String :=
  let sign := if q < 0 then "-" else ""
  let n := q.num.natAbs
  let d := q.den
  if d = 1 then sign ++ toString n
  else
    let r2 := factorOut 2 d
    let r5 := factorOut 5 r2.2
    if r5.2 = 1 then
      let k := max r2.1 r5.1
      let scaled := n * 10 ^ k / d
      let digits := toString scaled
      let padded :=
        if digits.length ≤ k then
          String.mk (List.replicate (k + 1 - digits.length) '0') ++ digits
        else digits
      sign ++ String.mk (padded.data.take (padded.length - k)) ++ "." ++
        String.mk (padded.data.drop (padded.length - k))
    else sign ++ toString q

/-- JavaScript string conversion of a number (template-literal semantics). -/
def jsNumToString : JSNum → String
  | .nan => "NaN"
  | .posInf => "Infinity"
  | .negInf => "-Infinity"
  | .fin q => ratToJSString q

/-- ASCII decimal digit. -/
def isDigit (c : Char) : Bool := '0' ≤ c && c ≤ '9'

/-- Value of a list of decimal digits. -/
def digitsToNat (ds : List Char) : ℕ :=
  ds.foldl (fun a c => 10 * a + (c.toNat - '0'.toNat)) 0

/-- Whitespace skipped by JavaScript `parseFloat` (ASCII subset). -/
def jsWhitespace (c : Char) : Bool :=
  c = ' ' || c = '\t' || c = '\n' || c = '\r' || c = '\x0b' || c = '\x0c'

/-- Parse an optional exponent part `e`/`E` `[+-]` digits; `none` when the
exponent is absent or malformed (in which case `parseFloat` keeps only the
mantissa, per longest-valid-prefix semantics). -/
def readExp (l : List Char) : Option ℤ :=
  match l with
  | 'e' :: r => readSignedDigits r
  | 'E' :: r => readSignedDigits r
  | _ => none
where
  readSignedDigits (r : List Char) : Option ℤ :=
    match r with
    | '+' :: r2 => readDigits r2 1
    | '-' :: r2 => readDigits r2 (-1)
    | _ => readDigits r 1
  readDigits (r : List Char) (sgn : ℤ) : Option ℤ :=
    let ds := r.takeWhile isDigit
    if ds.isEmpty then none else some (sgn * (digitsToNat ds : ℤ))

/-- Parse an unsigned `StrDecimalLiteral` prefix (digits, optional fraction,
optional exponent); `none` when no valid prefix exists. -/
def parseDecimalPrefix (l : List Char) : Option ℚ :=
  let ip := l.takeWhile isDigit
  let r1 := l.dropWhile isDigit
  if ip.isEmpty then
    match r1 with
    | '.' :: r2 =>
      let fp := r2.takeWhile isDigit
      if fp.isEmpty then none
      else some (applyExp (fracValue 0 fp) (r2.dropWhile isDigit))
    | _ => none
  else
    match r1 with
    | '.' :: r2 =>
      let fp := r2.takeWhile isDigit
      some (applyExp (fracValue (digitsToNat ip) fp) (r2.dropWhile isDigit))
    | _ => some (applyExp ((digitsToNat ip : ℚ)) r1)
where
  fracValue (ipVal : ℕ) (fp : List Char) : ℚ :=
    (ipVal : ℚ) + (digitsToNat fp : ℚ) / ((10 : ℚ) ^ fp.length)
  applyExp (q : ℚ) (rest : List Char) : ℚ :=
    match readExp rest with
    | some e => q * (10 : ℚ) ^ e
    | none => q

/-- JavaScript `parseFloat`: skip leading whitespace, read an optional sign,
then either an `Infinity` literal or the longest decimal-literal prefix;
`NaN` when no numeric prefix exists. -/
def parseFloat (s : String) : JSNum :=
  let l := s.data.dropWhile jsWhitespace
  match l with
  | '+' :: r => parseUnsigned r false
  | '-' :: r => parseUnsigned r true
  | _ => parseUnsigned l false
where
  parseUnsigned (l : List Char) (neg : Bool) : JSNum :=
    if l.take 8 = "Infinity".data then
      if neg then .negInf else .posInf
    else
      match parseDecimalPrefix l with
      | none => .nan
      | some q => .fin (if neg then -q else q)

/-! ## VPA codec (`src/services/vpaService.js`)

`VPA_PREFIX = 'sabpaisa.'`, `VPA_DOMAIN = '@okhdfcbank'`, identifier length 5,
alphabet `A-Z0-9`. -/

/-- The configured VPA prefix. -/
def VPA_PREFIX : String := "sabpaisa."

/-- The configured VPA domain suffix. -/
def VPA_DOMAIN : String := "@okhdfcbank"

/-- Membership in the regex class `[A-Z0-9]`. -/
def isIdentChar (c : Char) : Bool :=
  ('A' ≤ c && c ≤ 'Z') || ('0' ≤ c && c ≤ '9')

/-- What the regex metacharacter `.` matches (any char except a JavaScript
line terminator).  The source builds its validation regex by interpolating
`VPA_PREFIX` *unescaped*, so the prefix's final `'.'` is this wildcard. -/
def regexDotM (c : Char) : Bool :=
  !(c = '\n' || c = '\r' || c = '\u2028' || c = '\u2029')

/-- Denotation of the regex `^sabpaisa.[A-Z0-9]{5}@okhdfcbank$` produced by
`new RegExp` in `validateVPAFormat` (note the unescaped `.`). -/
def vpaMatch : List Char → Bool
  | 's' :: 'a' :: 'b' :: 'p' :: 'a' :: 'i' :: 's' :: 'a' :: c :: rest =>
    regexDotM c && (rest.take 5).all isIdentChar &&
      decide (rest.drop 5 = "@okhdfcbank".data)
  | _ => false

/-- `formatVPA`: prefix ++ identifier ++ domain. -/
def formatVPA (identifier : String) : String :=
  VPA_PREFIX ++ identifier ++ VPA_DOMAIN

/-- `validateVPAFormat`: regex test against the (unescaped) prefix + class +
domain shape. -/
def validateVPAFormat (vpa : String) : Bool := vpaMatch vpa.data

/-- JavaScript `String.prototype.substring`: clamp both indices to
`[0, length]`, swap when start exceeds end. -/
def jsSubstring (s : String) (a b : ℤ) : String :=
  let len : ℤ := s.length
  let a2 := min (max a 0) len
  let b2 := min (max b 0) len
  let lo := min a2 b2
  let hi := max a2 b2
  String.mk ((s.data.drop lo.toNat).take (hi - lo).toNat)

/-- `extractIdentifier`: throws `'Invalid VPA format'` unless the regex
matches, then returns `vpa.substring(9, 14)`. -/
def extractIdentifier (vpa : String) : Except String String :=
  if validateVPAFormat vpa then
    .ok (jsSubstring vpa 9 (9 + 5))
  else .error "Invalid VPA format"

/-! ## Webhook decoder and validators (`src/routes/health.js`) -/

/-- The parsed 21-field HDFC callback record built by
`EncryptionUtil.parseHDFCResponse`. -/
structure HDFCTransaction where
  merchantId : String
  merchantName : String
  terminalId : String
  transactionId : String
  bankRRN : String
  merchantTxnId : String
  amount : JSNum
  transactionStatus : String
  statusCode : String
  statusDescription : String
  payerVPA : String
  payerName : String
  mobileNumber : String
  transactionDateTime : String
  settlementAmount : JSNum
  settlementDateTime : String
  paymentMode : String
  mcc : String
  tipAmount : JSNum
  convenienceFee : JSNum
  checksum : String
deriving DecidableEq, Repr

/-- Split a character list on `'|'` (JavaScript `split` semantics: the empty
string yields one empty field, a trailing separator yields a trailing empty
field). -/
def splitOnPipeChar : List Char → List (List Char)
  | [] => [[]]
  | c :: rest =>
    let r := splitOnPipeChar rest
    if c = '|' then [] :: r
    else
      match r with
      | h :: t => (c :: h) :: t
      | [] => [[c]]

/-- JavaScript `decryptedData.split('|')`. -/
def splitPipe (s : String) : List String := (splitOnPipeChar s.data).map String.mk

/-- `EncryptionUtil.parseHDFCResponse`: split on `'|'`, reject unless exactly
21 fields, then read the fields positionally (`parseFloat` on the amount
positions, `parseFloat(x) || 0` on tip and convenience fee). -/
def parseHDFCResponse (decryptedData : String) : Except String HDFCTransaction :=
  let fields := splitPipe decryptedData
  if h : fields.length = 21 then
    .ok {
      merchantId := fields.get ⟨0, by omega⟩
      merchantName := fields.get ⟨1, by omega⟩
      terminalId := fields.get ⟨2, by omega⟩
      transactionId := fields.get ⟨3, by omega⟩
      bankRRN := fields.get ⟨4, by omega⟩
      merchantTxnId := fields.get ⟨5, by omega⟩
      amount := parseFloat (fields.get ⟨6, by omega⟩)
      transactionStatus := fields.get ⟨7, by omega⟩
      statusCode := fields.get ⟨8, by omega⟩
      statusDescription := fields.get ⟨9, by omega⟩
      payerVPA := fields.get ⟨10, by omega⟩
      payerName := fields.get ⟨11, by omega⟩
      mobileNumber := fields.get ⟨12, by omega⟩
      transactionDateTime := fields.get ⟨13, by omega⟩
      settlementAmount := parseFloat (fields.get ⟨14, by omega⟩)
      settlementDateTime := fields.get ⟨15, by omega⟩
      paymentMode := fields.get ⟨16, by omega⟩
      mcc := fields.get ⟨17, by omega⟩
      tipAmount := jsOrZero (parseFloat (fields.get ⟨18, by omega⟩))
      convenienceFee := jsOrZero (parseFloat (fields.get ⟨19, by omega⟩))
      checksum := fields.get ⟨20, by omega⟩ }
  else
    .error ("Invalid HDFC response format. Expected 21 fields, got " ++
      toString fields.length)

/-- Modelled abstraction of Node's `crypto.createHmac('sha256', key)` followed
by `.digest('hex').toUpperCase()`: an opaque deterministic keyed digest.  The
claims about the checksum flow depend only on determinism of the digest and on
the comparison logic, never on SHA-256 internals, so the digest body is a
plain injective encoding of key and message. -/
def hmacSHA256HexUpper (key msg : String) : String :=
  "HMACSHA256[" ++ toString key.length ++ ":" ++ key ++ "]" ++ msg

/-- `Object.values(data)` for the checksum-input object: the parsed record
minus its `checksum` property, in insertion (parse) order, with numeric
properties rendered back to strings by `join('|')`. -/
def checksumValues (t : HDFCTransaction) : List String :=
  [t.merchantId, t.merchantName, t.terminalId, t.transactionId, t.bankRRN,
   t.merchantTxnId, jsNumToString t.amount, t.transactionStatus, t.statusCode,
   t.statusDescription, t.payerVPA, t.payerName, t.mobileNumber,
   t.transactionDateTime, jsNumToString t.settlementAmount,
   t.settlementDateTime, t.paymentMode, t.mcc, jsNumToString t.tipAmount,
   jsNumToString t.convenienceFee]

/-- `EncryptionUtil.generateChecksum`: HMAC-SHA256 (uppercase hex) over the
object's values joined with `'|'`. -/
def joinPipe : List String → String
  | [] => ""
  | [s] => s
  | s :: rest => s ++ "|" ++ joinPipe rest

def generateChecksum (values : List String) (key : String) : String :=
  hmacSHA256HexUpper key (joinPipe values)

/-- `EncryptionUtil.validateChecksum`: recompute and compare with the
JavaScript `===` operator — ordinary string equality, not a constant-time
comparison. -/
def validateChecksum (values : List String) (receivedChecksum key : String) :
    Bool :=
  generateChecksum values key == receivedChecksum

/-- `TransactionValidator.validateAmount`: throws when
`amount < 1 || amount > 100000` under JavaScript comparison semantics
(so every comparison against `NaN` is false), otherwise returns `true`. -/
def validateAmount (amount : JSNum) : Except String Bool :=
  if jsLt amount (.fin 1) || jsGt amount (.fin 100000) then
    .error ("Amount ₹" ++ jsNumToString amount ++
      " is outside allowed limits (₹1 - ₹100000)")
  else .ok true

/-- `TransactionValidator.validateTimestamp`: rejects ages over 24 hours
except in development mode.  The age in hours (computed in the source from
`Date` arithmetic) is passed in explicitly. -/
def validateTimestamp (isDevelopment : Bool) (hoursDiff : ℚ) :
    Except String Bool :=
  if !isDevelopment && decide (hoursDiff > 24) then
    .error "Transaction is older than 24 hours"
  else .ok true

/-- `TransactionValidator.checkDuplicate`: returns the lookup's `success`
flag, and `false` whenever the lookup threw (the `catch` branch). -/
def checkDuplicate (lookupResult : Except String Bool) : Bool :=
  match lookupResult with
  | .ok success => success
  | .error _ => false

/-- `extractQRIdentifier`: strip the `STQ`/`DYN` prefix and the trailing
13-character timestamp via `substring(3, length - 13)`; otherwise return the
input unchanged. -/
def strStartsWith (s p : String) : Bool := p.data.isPrefixOf s.data

def extractQRIdentifier (merchantTxnId : String) : String :=
  if strStartsWith merchantTxnId "STQ" then
    jsSubstring merchantTxnId 3 ((merchantTxnId.length : ℤ) - 13)
  else if strStartsWith merchantTxnId "DYN" then
    jsSubstring merchantTxnId 3 ((merchantTxnId.length : ℤ) - 13)
  else merchantTxnId

/-- The `HDFC_ERROR_CODES` table. -/
def hdfcErrorCodes : List (String × String) :=
  [("00", "Success"),
   ("U01", "The request is duplicate"),
   ("U02", "Not sufficient funds"),
   ("U03", "Debit has failed"),
   ("U04", "Credit has failed"),
   ("U05", "Transaction not permitted"),
   ("U06", "Invalid VPA"),
   ("U07", "Transaction timeout"),
   ("U08", "Invalid Amount"),
   ("U09", "Remitter bank not available"),
   ("U10", "Beneficiary bank not available"),
   ("U11", "Invalid transaction"),
   ("U12", "Invalid reference number"),
   ("U13", "Approval declined"),
   ("U14", "Transaction already completed"),
   ("U15", "Request timeout"),
   ("U16", "Risk threshold exceeded"),
   ("U17", "PSP not available"),
   ("U18", "Invalid merchant"),
   ("U19", "Merchant blocked"),
   ("U20", "Invalid response")]

/-- `HDFC_ERROR_CODES[code] || statusDescription || 'Transaction failed'`
(JavaScript `||`: a missing table entry and an empty string are falsy; every
table entry is a non-empty, hence truthy, string). -/
def hdfcErrorDescription (t : HDFCTransaction) : String :=
  match hdfcErrorCodes.find? (fun p => p.1 == t.statusCode) with
  | some p => p.2
  | none => if t.statusDescription == "" then "Transaction failed"
            else t.statusDescription

/-! ## Reconciliation engine (`src/services/QRTransactionService.js`)

Database tables are association lists; each storage transaction is one atomic
function application (commit), and a thrown error inside the unit of work is
an `Except.error` result that leaves the input state untouched (rollback). -/

/-- A row of `qr_transactions` (the columns touched by the embedded code;
timestamp columns are omitted, no claim mentions them). -/
structure TxnRecord where
  transaction_id : String
  qr_code_id : ℕ
  merchant_id : String
  amount : JSNum
  customer_vpa : String
  customer_name : String
  reference_number : String
  bank_reference_number : String
  status : String
  payment_method : String
  settlement_status : Option String
  refund_amount : Option JSNum
deriving DecidableEq, Repr

/-- A row of `qr_daily_stats` (value part). -/
structure DailyStats where
  total_transactions : ℕ
  successful_transactions : ℕ
  total_amount : JSNum
  successful_amount : JSNum
deriving DecidableEq, Repr

/-- Key of `qr_daily_stats`: `(merchant_id, qr_code_id, stat_date)`. -/
structure StatsKey where
  merchant_id : String
  qr_code_id : ℕ
  stat_date : String
deriving DecidableEq, Repr

/-- A row of `qr_webhook_events` (the columns the claims can observe). -/
structure WebhookEvent where
  event_type : String
  transaction_id : String
deriving DecidableEq, Repr

/-- A row of `qr_refund_audit`. -/
structure RefundAudit where
  transaction_id : String
  refund_id : String
  original_amount : JSNum
  refund_amount : JSNum
  refund_type : String
  initiated_by : String
  refund_reason : String
  status : String
deriving DecidableEq, Repr

/-- The persistent state: `qr_codes` maps `qr_identifier` to the row id. -/
structure DB where
  qr_codes : List (String × ℕ)
  qr_transactions : List TxnRecord
  qr_daily_stats : List (StatsKey × DailyStats)
  qr_webhook_events : List WebhookEvent
  qr_refund_audit : List RefundAudit
deriving DecidableEq, Repr

/-- The webhook payload handed to `processTransactionWebhook` by the route's
`processSuccessfulTransaction` / `processFailedTransaction` mappers. -/
structure WebhookData where
  transaction_id : String
  merchant_id : String
  qr_identifier : String
  amount : JSNum
  customer_vpa : String
  customer_name : String
  reference_number : String
  bank_reference_number : String
  status : String
  payment_method : String
  failure_reason : Option String
deriving DecidableEq, Repr

/-- The `ON DUPLICATE KEY UPDATE` arithmetic of `updateDailyStats`:
increment both counters and add the amount to both totals. -/
def bumpStats (amount : JSNum) (s : DailyStats) : DailyStats :=
  { total_transactions := s.total_transactions + 1
    successful_transactions := s.successful_transactions + 1
    total_amount := jsAdd s.total_amount amount
    successful_amount := jsAdd s.successful_amount amount }

/-- `updateDailyStats`: `INSERT ... ON DUPLICATE KEY UPDATE` on
`(merchant_id, qr_code_id, stat_date)` — insert `(1, 1, amount, amount)` or
apply `bumpStats`. -/
def updateDailyStats (today : String) (db : DB) (merchantId : String)
    (qrCodeId : ℕ) (amount : JSNum) : DB :=
  let key : StatsKey := ⟨merchantId, qrCodeId, today⟩
  if db.qr_daily_stats.any (fun p => p.1 == key) then
    { db with qr_daily_stats := db.qr_daily_stats.map (fun p =>
        if p.1 == key then (p.1, bumpStats amount p.2) else p) }
  else
    { db with qr_daily_stats :=
        db.qr_daily_stats ++ [(key, ⟨1, 1, amount, amount⟩)] }

/-- `processTransactionWebhook`, one atomic unit of work:
look up the QR code by identifier (`'Invalid QR code'` when absent), check
for an existing row with the same `transaction_id` (no merchant filter),
then either update that row's status/bank-reference/settlement-status
unconditionally or insert a fresh row; update the daily stats whenever the
incoming status is `'success'` (on the update path too); append a webhook
event; commit. -/
def processTransactionWebhook (today : String) (db : DB) (w : WebhookData) :
    Except String (DB × String) :=
  match db.qr_codes.find? (fun p => p.1 == w.qr_identifier) with
  | none => .error "Invalid QR code"
  | some qr =>
    let qrCodeId := qr.2
    let existsTxn := db.qr_transactions.any
      (fun r => r.transaction_id == w.transaction_id)
    let db1 :=
      if existsTxn then
        { db with qr_transactions := db.qr_transactions.map (fun r =>
            if r.transaction_id == w.transaction_id then
              { r with
                  status := w.status
                  bank_reference_number := w.bank_reference_number
                  settlement_status :=
                    if w.status == "success" then some "pending"
                    else r.settlement_status }
            else r) }
      else
        { db with qr_transactions := db.qr_transactions ++ [{
            transaction_id := w.transaction_id
            qr_code_id := qrCodeId
            merchant_id := w.merchant_id
            amount := w.amount
            customer_vpa := w.customer_vpa
            customer_name := w.customer_name
            reference_number := w.reference_number
            bank_reference_number := w.bank_reference_number
            status := w.status
            payment_method := w.payment_method
            settlement_status :=
              if w.status == "success" then some "pending" else none
            refund_amount := none }] }
    let db2 :=
      if w.status == "success" then
        updateDailyStats today db1 w.merchant_id qrCodeId w.amount
      else db1
    let db3 := { db2 with qr_webhook_events := db2.qr_webhook_events ++
        [⟨"transaction." ++ w.status, w.transaction_id⟩] }
    .ok (db3, w.transaction_id)

/-- Refund request data. -/
structure RefundData where
  refund_type : String
  refund_amount : JSNum
  reason : String
deriving DecidableEq, Repr

/-- `initiateRefund`: only a transaction currently in status `'success'` is
eligible (the lookup query filters on it); a full refund uses the original
amount; the refund may not exceed the original amount; on success append an
audit row and set the transaction's status to `'refunded'` or
`'partial_refunded'`.  The randomly generated refund id is passed in
explicitly. -/
def initiateRefund (db : DB) (transactionId : String) (rd : RefundData)
    (initiatedBy : String) (refundId : String) : Except String (DB × String) :=
  match db.qr_transactions.find?
      (fun r => r.transaction_id == transactionId && r.status == "success") with
  | none => .error "Transaction not found or not eligible for refund"
  | some txn =>
    let refundAmount :=
      if rd.refund_type == "full" then txn.amount else rd.refund_amount
    if jsGt refundAmount txn.amount then
      .error "Refund amount cannot exceed transaction amount"
    else
      let newStatus :=
        if rd.refund_type == "full" then "refunded" else "partial_refunded"
      let auditRow : RefundAudit := {
          transaction_id := transactionId
          refund_id := refundId
          original_amount := txn.amount
          refund_amount := refundAmount
          refund_type := rd.refund_type
          initiated_by := initiatedBy
          refund_reason := rd.reason
          status := "initiated" }
      let db1 := { db with qr_refund_audit := db.qr_refund_audit ++ [auditRow] }
      let updated := db1.qr_transactions.map (fun r =>
        if r.transaction_id == transactionId then
          { r with status := newStatus, refund_amount := some refundAmount }
        else r)
      let db2 := { db1 with qr_transactions := updated }
      .ok (db2, refundId)

/-- `getTransactionDetails`' observable `success` flag: whether a row exists
with the given `transaction_id` *and* `merchant_id`. -/
def getTransactionDetails (db : DB) (transactionId merchantId : String) :
    Bool :=
  db.qr_transactions.any
    (fun r => r.transaction_id == transactionId &&
      r.merchant_id == merchantId)

/-- The duplicate lookup actually installed in production: a successful read
of the committed state `db`. -/
def dbLookupOf (db : DB) : String → String → Except String Bool :=
  fun transactionId merchantId =>
    .ok (getTransactionDetails db transactionId merchantId)

/-! ## The `/hdfc/webhook` route (`src/routes/health.js`)

The Express handler is embedded as a pure function over an explicit system
state.  Ambient collaborators become parameters: `decrypt` stands for
`EncryptionUtil.decryptAES128` (AES-128-ECB via CryptoJS; the cipher's
internals are irrelevant to every claim), `dupLookup` for the awaited
`QRTransactionService.getTransactionDetails` call (which can reject on a
storage failure), and `ageHours` for the `Date` arithmetic inside
`validateTimestamp`.  A `throw` caught by the route's `catch` block is the
`serverError` (HTTP 500) response. -/

/-- The environment the handler reads: `NODE_ENV === 'development'` and
`process.env.HDFC_MERCHANT_KEY`. -/
structure Env where
  isDevelopment : Bool
  merchantKey : Option String
deriving DecidableEq, Repr

/-- The request body `{ encryptedData, merchantId }` (only `encryptedData`
is consulted). -/
structure ReqBody where
  encryptedData : Option String
deriving DecidableEq, Repr

/-- The handler's HTTP response, by status code and distinguishing payload. -/
inductive Response where
  | badRequest (msg : String)
  | okDuplicate (transactionId : String)
  | okProcessed (transactionId : String)
  | serverError (msg : String)
deriving DecidableEq, Repr

/-- A record as `LocalTransactionStore.saveTransaction` stores it (the
second document inside `src/services/vpaService.js`): a reshaped copy of the
parsed callback, with its own `qrId` slice, string-coercion round trips on
the numeric fields, and the always-`NaN` `netAmount` (the parsed record has
no `netAmount` property, so `parseFloat(undefined)` is `NaN`). -/
structure LocalStoredTxn where
  id : ℕ
  transactionId : String
  qrId : String
  merchantName : String
  merchantTxnId : String
  bankRRN : String
  amount : JSNum
  status : String
  payerVPA : String
  payerName : String
  mobileNumber : String
  transactionDate : String
  settlementAmount : JSNum
  settlementDate : String
  paymentMode : String
  statusDescription : String
  mcc : String
  tipAmount : JSNum
  convenienceFee : JSNum
  netAmount : JSNum
  checksum : String
  createdAt : String
deriving DecidableEq, Repr

/-- `parseFloat` applied to a value that is already a number: JavaScript
coerces it to its string form first. -/
def parseFloatOfNum (v : JSNum) : JSNum := parseFloat (jsNumToString v)

/-- `LocalTransactionStore.saveTransaction`: skip (reporting a duplicate)
when a stored record already carries the incoming `transactionId`; otherwise
append the reshaped record.  The ambient clock used for the
`TXN${Date.now()}` fallback id and the `createdAt` timestamp is passed in as
`nowMs`/`nowIso`.  Returns the new store and the duplicate flag. -/
def saveTransaction (nowMs nowIso : String) (store : List LocalStoredTxn)
    (t : HDFCTransaction) : List LocalStoredTxn × Bool :=
  if store.any (fun s => s.transactionId == t.transactionId) then
    (store, true)
  else
    let qrSlice := jsSubstring t.merchantTxnId 3 9
    let stored : LocalStoredTxn :=
      { id := store.length + 1
        transactionId :=
          if t.transactionId == "" then "TXN" ++ nowMs else t.transactionId
        qrId := if qrSlice == "" then "QR001" else qrSlice
        merchantName :=
          if t.merchantName == "" then "Merchant" else t.merchantName
        merchantTxnId := t.merchantTxnId
        bankRRN := t.bankRRN
        amount := parseFloatOfNum t.amount
        status := t.transactionStatus
        payerVPA := t.payerVPA
        payerName := t.payerName
        mobileNumber := t.mobileNumber
        transactionDate := t.transactionDateTime
        settlementAmount := parseFloatOfNum t.settlementAmount
        settlementDate := t.settlementDateTime
        paymentMode := t.paymentMode
        statusDescription := t.statusDescription
        mcc := t.mcc
        tipAmount := jsOrZero (parseFloatOfNum t.tipAmount)
        convenienceFee := jsOrZero (parseFloatOfNum t.convenienceFee)
        netAmount := .nan
        checksum := t.checksum
        createdAt := nowIso }
    (store ++ [stored], false)

/-- Mutable storage reachable from the handler: the production database and
the development-mode local store (`LocalTransactionStore`'s JSON file). -/
structure SysState where
  db : DB
  localStore : List LocalStoredTxn
deriving DecidableEq, Repr

/-- Map a parsed record to the service-layer payload built by
`processSuccessfulTransaction`. -/
def mapSuccessData (t : HDFCTransaction) : WebhookData :=
  { transaction_id := t.transactionId
    merchant_id := t.merchantId
    qr_identifier := extractQRIdentifier t.merchantTxnId
    amount := t.amount
    customer_vpa := t.payerVPA
    customer_name := t.payerName
    reference_number := t.merchantTxnId
    bank_reference_number := t.bankRRN
    status := "success"
    payment_method := "UPI"
    failure_reason := none }

/-- Map a parsed record to the service-layer payload built by
`processFailedTransaction`. -/
def mapFailedData (t : HDFCTransaction) : WebhookData :=
  { transaction_id := t.transactionId
    merchant_id := t.merchantId
    qr_identifier := extractQRIdentifier t.merchantTxnId
    amount := t.amount
    customer_vpa := t.payerVPA
    customer_name := t.payerName
    reference_number := t.merchantTxnId
    bank_reference_number := t.bankRRN
    status := "failed"
    payment_method := "UPI"
    failure_reason := some (hdfcErrorDescription t) }

/-- The route's reconciliation tail for one delivery: the
`TransactionValidator.checkDuplicate` consultation followed, when it says
no, by the status-dependent mapping and `processTransactionWebhook`.  The
`lookup` parameter is the snapshot the duplicate check reads — for
sequential deliveries the committed state, for racing deliveries the state
before the other delivery committed. -/
inductive DeliverOutcome where
  | duplicate (transactionId : String)
  | processed (transactionId : String)
  | failedProcessing (msg : String)
deriving DecidableEq, Repr

/-- One delivery's duplicate-check-then-process flow (see
`DeliverOutcome`). -/
def deliverCore (lookup : String → String → Except String Bool)
    (today : String) (db : DB) (t : HDFCTransaction) : DeliverOutcome × DB :=
  if checkDuplicate (lookup t.transactionId t.merchantId) then
    (.duplicate t.transactionId, db)
  else
    let w := if t.transactionStatus == "SUCCESS" then mapSuccessData t
             else mapFailedData t
    match processTransactionWebhook today db w with
    | .ok (db2, _) => (.processed t.transactionId, db2)
    | .error e => (.failedProcessing e, db)

/-- The full `/hdfc/webhook` handler, in source order: missing-body check
(`if (!encryptedData)` — a truthiness gate, so an absent field *and* the
empty string both get the 400), merchant-key check (throw → 500),
decryption, parsing, checksum validation (skipped when
`NODE_ENV === 'development'`), duplicate check (200 duplicate), amount
validation, timestamp validation, then the status-dependent processing —
through `LocalTransactionStore.saveTransaction` in development, through
`processTransactionWebhook` otherwise.  `nowMs`/`nowIso` stand for the
ambient clock the local store reads. -/
def handleWebhook (env : Env)
    (decrypt : String → String → Except String String)
    (dupLookup : String → String → Except String Bool)
    (ageHours : String → ℚ) (nowMs nowIso today : String)
    (st : SysState) (body : ReqBody) : Response × SysState :=
  match body.encryptedData with
  | none => (.badRequest "Missing encrypted data", st)
  | some encryptedData =>
    if encryptedData == "" then (.badRequest "Missing encrypted data", st)
    else
    match env.merchantKey with
    | none => (.serverError "Merchant key not configured", st)
    | some merchantKey =>
      match decrypt encryptedData merchantKey with
      | .error e => (.serverError e, st)
      | .ok decryptedData =>
        match parseHDFCResponse decryptedData with
        | .error e => (.serverError e, st)
        | .ok t =>
          if !env.isDevelopment &&
              !(validateChecksum (checksumValues t) t.checksum merchantKey) then
            (.serverError "Invalid checksum - possible data tampering", st)
          else if checkDuplicate (dupLookup t.transactionId t.merchantId) then
            (.okDuplicate t.transactionId, st)
          else
            match validateAmount t.amount with
            | .error e => (.serverError e, st)
            | .ok _ =>
              match validateTimestamp env.isDevelopment
                  (ageHours t.transactionDateTime) with
              | .error e => (.serverError e, st)
              | .ok _ =>
                if env.isDevelopment then
                  (.okProcessed t.transactionId,
                   { st with localStore :=
                      (saveTransaction nowMs nowIso st.localStore t).1 })
                else
                  let w := if t.transactionStatus == "SUCCESS" then
                      mapSuccessData t
                    else mapFailedData t
                  match processTransactionWebhook today st.db w with
                  | .error e => (.serverError e, st)
                  | .ok (db2, _) =>
                    (.okProcessed t.transactionId, { st with db := db2 })

/-! ## Helper lemmas -/

theorem any_false_mem {α} {l : List α} {p : α → Bool} (h : l.any p = false)
    {x : α} (hx : x ∈ l) : p x = false :=
  Bool.eq_false_iff.mpr (List.any_eq_false.mp h x hx)

theorem updateDailyStats_qr_transactions (today : String) (db : DB)
    (m : String) (q : ℕ) (a : JSNum) :
    (updateDailyStats today db m q a).qr_transactions = db.qr_transactions := by
  rw [updateDailyStats]
  split <;> rfl

/-- The observable daily success counter for one `(merchant, qr, date)` key
(`0` when the row does not exist yet). -/
def successCount (db : DB) (key : StatsKey) : ℕ :=
  ((db.qr_daily_stats.find? (fun p => p.1 == key)).map
    (fun p => p.2.successful_transactions)).getD 0

theorem find?_keyBump (key : StatsKey) (f : DailyStats → DailyStats) :
    ∀ l : List (StatsKey × DailyStats),
      (l.map (fun p => if p.1 == key then (p.1, f p.2) else p)).find?
          (fun p => p.1 == key) =
        (l.find? (fun p => p.1 == key)).map (fun p => (p.1, f p.2))
  | [] => rfl
  | p :: rest => by
    rw [List.map_cons]
    by_cases h : (p.1 == key) = true
    · simp only [if_pos h, List.find?_cons, h, if_true, Option.map_some']
    · have h2 : (p.1 == key) = false := by
        rw [← Bool.not_eq_true]
        exact h
      simp only [if_neg h, List.find?_cons, h2, if_false, Bool.false_eq_true]
      exact find?_keyBump key f rest

/-- One `updateDailyStats` call increments the success counter of its own
key by exactly one, whether the row already existed or not. -/
theorem updateDailyStats_successCount (today : String) (db : DB)
    (m : String) (q : ℕ) (a : JSNum) :
    successCount (updateDailyStats today db m q a) ⟨m, q, today⟩ =
      successCount db ⟨m, q, today⟩ + 1 := by
  rw [updateDailyStats]
  set key : StatsKey := ⟨m, q, today⟩ with hkey
  by_cases hany : db.qr_daily_stats.any (fun p => p.1 == key) = true
  · rw [if_pos hany]
    unfold successCount
    dsimp only
    rw [find?_keyBump key (bumpStats a)]
    rcases hf : db.qr_daily_stats.find? (fun p => p.1 == key) with _ | p0
    · rw [List.find?_eq_none] at hf
      rw [List.any_eq_true] at hany
      obtain ⟨x, hx, hpx⟩ := hany
      exact absurd hpx (hf x hx)
    · rw [hf]
      simp [bumpStats]
  · rw [if_neg hany]
    unfold successCount
    dsimp only
    rw [Bool.not_eq_true] at hany
    have hnone : db.qr_daily_stats.find? (fun p => p.1 == key) = none := by
      rw [List.find?_eq_none]
      intro x hx
      simp [any_false_mem hany hx]
    rw [List.find?_append, hnone]
    simp [List.find?_cons]

/-- Shape of a first-delivery insert: with a valid QR id and no existing row
for the transaction id, `processTransactionWebhook` commits and appends
exactly one transaction row carrying the webhook's identifiers. -/
theorem process_insert_shape (today : String) (db : DB) (w : WebhookData)
    (pr : String × ℕ)
    (hqr : db.qr_codes.find? (fun p => p.1 == w.qr_identifier) = some pr)
    (hex : db.qr_transactions.any
      (fun r => r.transaction_id == w.transaction_id) = false) :
    ∃ db3, processTransactionWebhook today db w = .ok (db3, w.transaction_id) ∧
      db3.qr_transactions = db.qr_transactions ++ [{
        transaction_id := w.transaction_id
        qr_code_id := pr.2
        merchant_id := w.merchant_id
        amount := w.amount
        customer_vpa := w.customer_vpa
        customer_name := w.customer_name
        reference_number := w.reference_number
        bank_reference_number := w.bank_reference_number
        status := w.status
        payment_method := w.payment_method
        settlement_status :=
          if w.status == "success" then some "pending" else none
        refund_amount := none }] := by
  rw [processTransactionWebhook, hqr]
  simp only [hex, Bool.false_eq_true, if_false]
  refine ⟨_, rfl, ?_⟩
  split <;> simp [updateDailyStats_qr_transactions]

/-- `parseFloat(x) || 0` can never be `NaN`. -/
theorem jsOrZero_ne_nan (v : JSNum) : jsOrZero v ≠ .nan := by
  rw [jsOrZero]
  split
  · cases v <;> simp_all [jsTruthy]
  · simp

/-- No identifier formats to the malformed address used against C5: every
formatted address carries a literal `'.'` at index 8, the malformed one an
`'X'`. -/
theorem formatVPA_ne_malformed (c : String) :
    formatVPA c ≠ "sabpaisaXABCDE@okhdfcbank" := by
  intro h
  have hd := congrArg String.data h
  have hfmt : (formatVPA c).data =
      's' :: 'a' :: 'b' :: 'p' :: 'a' :: 'i' :: 's' :: 'a' :: '.' ::
        (c.data ++ "@okhdfcbank".data) := by
    simp [formatVPA, VPA_PREFIX, VPA_DOMAIN, String.data_append]
  rw [hfmt] at hd
  simp at hd

/-! ## Claims -/

/-- **C4.** For every valid 5-character code `c` over the alphabet `A-Z0-9`,
`extractIdentifier (formatVPA c) = c`: the formatted address passes the
format validation and the `substring(9, 14)` slice recovers exactly `c`. -/
theorem extract_format_roundtrip (c : String) (h5 : c.length = 5)
    (hch : ∀ ch ∈ c.data, isIdentChar ch = true) :
    extractIdentifier (formatVPA c) = .ok c := by
  have hlen : c.data.length = 5 := h5
  have hdata : (formatVPA c).data =
      's' :: 'a' :: 'b' :: 'p' :: 'a' :: 'i' :: 's' :: 'a' :: '.' ::
        (c.data ++ "@okhdfcbank".data) := by
    simp [formatVPA, VPA_PREFIX, VPA_DOMAIN, String.data_append]
  have hvalid : validateVPAFormat (formatVPA c) = true := by
    unfold validateVPAFormat
    rw [hdata]
    simp only [vpaMatch, Bool.and_eq_true]
    refine ⟨⟨by decide, ?_⟩, ?_⟩
    · rw [show (5:ℕ) = c.data.length from hlen.symm, List.take_left]
      exact List.all_eq_true.mpr hch
    · rw [show (5:ℕ) = c.data.length from hlen.symm, List.drop_left]
      simp
  have hsl : (formatVPA c).length = 25 := by
    show (formatVPA c).data.length = 25
    rw [hdata]
    simp [hlen]
  unfold extractIdentifier
  rw [hvalid]
  simp only [if_true]
  congr 1
  unfold jsSubstring
  rw [hsl]
  norm_num
  rw [hdata]
  simp only [show Int.toNat 5 = 5 from rfl, show Int.toNat 9 = 9 from rfl,
    List.drop_succ_cons, List.drop_zero]
  rw [show (5:ℕ) = c.data.length from hlen.symm, List.take_left]

/-- Witness for C4 at the concrete code `"ABC12"`. -/
theorem extract_format_roundtrip_witness :
    ("ABC12" : String).length = 5 ∧
    extractIdentifier (formatVPA "ABC12") = .ok "ABC12" :=
  ⟨by decide, extract_format_roundtrip "ABC12" (by decide) (by decide)⟩

/-- **C5.** The address `"sabpaisaXABCDE@okhdfcbank"` is malformed (it is not
`formatVPA c` for any `c`: `formatVPA_ne_malformed`; in particular not for
`"ABCDE"`), yet `validateVPAFormat` accepts it — the `RegExp` is built from
the unescaped prefix `'sabpaisa.'`, whose final `'.'` matches any character —
and `extractIdentifier` returns the best-effort substring `"ABCDE"` instead
of failing. -/
theorem malformed_vpa_accepted_by_unescaped_dot :
    validateVPAFormat "sabpaisaXABCDE@okhdfcbank" = true ∧
    extractIdentifier "sabpaisaXABCDE@okhdfcbank" = .ok "ABCDE" ∧
    formatVPA "ABCDE" ≠ "sabpaisaXABCDE@okhdfcbank" := by
  refine ⟨by decide, by decide, ?_⟩
  exact formatVPA_ne_malformed "ABCDE"

/-- **C6.** `parseHDFCResponse` succeeds exactly when splitting on `'|'`
yields 21 fields, and on any other count fails with the format error before
producing any record. -/
theorem parse_succeeds_iff_21_fields :
    (∀ s, (∃ t, parseHDFCResponse s = .ok t) ↔ (splitPipe s).length = 21) ∧
    (∀ s, (splitPipe s).length ≠ 21 →
      parseHDFCResponse s = .error
        ("Invalid HDFC response format. Expected 21 fields, got " ++
          toString (splitPipe s).length)) := by
  constructor
  · intro s
    constructor
    · rintro ⟨t, ht⟩
      by_contra hlen
      rw [parseHDFCResponse, dif_neg hlen] at ht
      exact Except.noConfusion ht
    · intro hlen
      rw [parseHDFCResponse]
      exact ⟨_, dif_pos hlen⟩
  · intro s hlen
    rw [parseHDFCResponse, dif_neg hlen]

/-- Witness for C6's second conjunct at a two-field plaintext. -/
theorem parse_succeeds_iff_21_fields_witness :
    parseHDFCResponse "a|b" =
      .error "Invalid HDFC response format. Expected 21 fields, got 2" := by
  have h := parse_succeeds_iff_21_fields.2 "a|b" (by decide)
  simpa using h

/-- **C7 (counterexample).** `validateAmount` accepts `NaN`: both JavaScript
comparisons `NaN < 1` and `NaN > 100000` are false, so the guard does not
throw, contradicting the claim that any non-finite value is rejected. -/
theorem nan_amount_accepted : validateAmount .nan = .ok true := by decide

/-- **C7 (amended).** `validateAmount` accepts a finite amount exactly when it
lies in the inclusive range `[1, 100000]` (so the boundary values pass and
values one unit outside fail), rejects `±Infinity`, but accepts `NaN`. -/
theorem amount_bounds_characterization :
    (∀ q : ℚ, validateAmount (.fin q) = .ok true ↔ 1 ≤ q ∧ q ≤ 100000) ∧
    validateAmount (.fin 1) = .ok true ∧
    validateAmount (.fin 100000) = .ok true ∧
    validateAmount (.fin 0) =
      .error "Amount ₹0 is outside allowed limits (₹1 - ₹100000)" ∧
    validateAmount (.fin 100001) =
      .error "Amount ₹100001 is outside allowed limits (₹1 - ₹100000)" ∧
    validateAmount .posInf =
      .error "Amount ₹Infinity is outside allowed limits (₹1 - ₹100000)" ∧
    validateAmount .negInf =
      .error "Amount ₹-Infinity is outside allowed limits (₹1 - ₹100000)" ∧
    validateAmount .nan = .ok true := by
  refine ⟨fun q => ?_, by decide, by decide, by decide, by decide, by decide,
    by decide, by decide⟩
  rw [validateAmount]
  simp only [jsLt, jsGt]
  by_cases h1 : q < 1
  · simp only [decide_eq_true h1, Bool.true_or, if_true]
    constructor
    · intro h
      exact Except.noConfusion h
    · intro h
      linarith [h.1]
  · by_cases h2 : (100000 : ℚ) < q
    · simp only [decide_eq_true h2, Bool.or_true, if_true]
      constructor
      · intro h
        exact Except.noConfusion h
      · intro h
        linarith [h.2]
    · simp only [decide_eq_false h1, decide_eq_false h2, Bool.or_self,
        if_false]
      constructor
      · intro _
        constructor <;> linarith [not_lt.mp h1, not_lt.mp h2]
      · intro _
        rfl

/-- The 21-field plaintext used against C9: non-numeric `amount`, tip field
`"Infinity"`. -/
def c9Plain : String :=
  "M1|MName|T1|TXN9|RRN9|STQQR0011234567890123|abc|SUCCESS|00|Success|" ++
  "payer@upi|Payer|9999|20261012|xyz|20261012|UPI|5411|Infinity|junk|CHK"

/-- The record `parseHDFCResponse` produces for `c9Plain`. -/
def c9Record : HDFCTransaction :=
  { merchantId := "M1", merchantName := "MName", terminalId := "T1",
    transactionId := "TXN9", bankRRN := "RRN9",
    merchantTxnId := "STQQR0011234567890123", amount := .nan,
    transactionStatus := "SUCCESS", statusCode := "00",
    statusDescription := "Success", payerVPA := "payer@upi",
    payerName := "Payer", mobileNumber := "9999",
    transactionDateTime := "20261012", settlementAmount := .nan,
    settlementDateTime := "20261012", paymentMode := "UPI", mcc := "5411",
    tipAmount := .posInf, convenienceFee := .fin 0, checksum := "CHK" }

/-- **C9 (counterexample).** A tip field of `"Infinity"` survives
`parseFloat(x) || 0` (the parsed `Infinity` is truthy), so the accepted
record's `tipAmount` is *not* a finite number. -/
theorem infinity_tip_not_finite :
    parseHDFCResponse c9Plain = .ok c9Record ∧
    c9Record.tipAmount = .posInf := by
  constructor
  · decide
  · rfl

/-- **C9 (amended).** For every accepted plaintext the tip and convenience
fee are never `NaN` (non-numeric text collapses to `0` via `|| 0`, though an
`"Infinity"` field stays non-finite), whereas a non-numeric amount field
parses to `NaN`, which downstream `validateAmount` then accepts. -/
theorem tip_fee_never_nan_amount_nan_propagates :
    (∀ s t, parseHDFCResponse s = .ok t →
      t.tipAmount ≠ .nan ∧ t.convenienceFee ≠ .nan) ∧
    (parseHDFCResponse c9Plain = .ok c9Record ∧ c9Record.amount = .nan ∧
      validateAmount c9Record.amount = .ok true) := by
  constructor
  · intro s t ht
    rw [parseHDFCResponse] at ht
    split at ht
    · rw [Except.ok.injEq] at ht
      subst ht
      exact ⟨jsOrZero_ne_nan _, jsOrZero_ne_nan _⟩
    · exact Except.noConfusion ht
  · exact ⟨by decide, rfl, by decide⟩

/-- Witness for C9's universally quantified part at `c9Plain`. -/
theorem tip_fee_never_nan_amount_nan_propagates_witness :
    c9Record.tipAmount ≠ .nan ∧ c9Record.convenienceFee ≠ .nan :=
  tip_fee_never_nan_amount_nan_propagates.1 c9Plain c9Record (by decide)

/-- A database holding one registered QR code and nothing else. -/
def freshDb : DB :=
  { qr_codes := [("QR001", 1)], qr_transactions := [], qr_daily_stats := [],
    qr_webhook_events := [], qr_refund_audit := [] }

/-- Initial system state for the handler fixtures. -/
def st0 : SysState := { db := freshDb, localStore := [] }

/-- A well-formed success callback for QR code `QR001` (checksum field does
not match the recomputed digest). -/
def okTxn : HDFCTransaction :=
  { merchantId := "M1", merchantName := "MName", terminalId := "T1",
    transactionId := "TXN1", bankRRN := "RRN1",
    merchantTxnId := "STQQR0011234567890123", amount := .fin 150,
    transactionStatus := "SUCCESS", statusCode := "00",
    statusDescription := "Success", payerVPA := "payer@upi",
    payerName := "Payer", mobileNumber := "9999",
    transactionDateTime := "20261012", settlementAmount := .fin 150,
    settlementDateTime := "20261012", paymentMode := "UPI", mcc := "5411",
    tipAmount := .fin 0, convenienceFee := .fin 0, checksum := "DEADBEEF" }

/-- The 21-field plaintext parsing to `okTxn`. -/
def okPlain : String :=
  "M1|MName|T1|TXN1|RRN1|STQQR0011234567890123|150|SUCCESS|00|Success|" ++
  "payer@upi|Payer|9999|20261012|150|20261012|UPI|5411|0|0|DEADBEEF"

/-- **C10.** `checkDuplicate` maps every thrown lookup error to `false`, and
a delivery whose duplicate lookup throws therefore proceeds down the
first-delivery insert path — one new transaction row — instead of being
surfaced as a retryable error. -/
theorem lookup_error_proceeds_to_insert :
    (∀ e : String, checkDuplicate (.error e) = false) ∧
    (∀ (e today : String) (db : DB) (t : HDFCTransaction) (pr : String × ℕ),
      db.qr_codes.find?
          (fun p => p.1 == extractQRIdentifier t.merchantTxnId) = some pr →
      db.qr_transactions.any
          (fun r => r.transaction_id == t.transactionId) = false →
      ∃ db2, deliverCore (fun _ _ => .error e) today db t =
          (.processed t.transactionId, db2) ∧
        db2.qr_transactions.length = db.qr_transactions.length + 1) := by
  refine ⟨fun e => rfl, ?_⟩
  intro e today db t pr hqr hex
  rw [deliverCore]
  simp only [checkDuplicate, Bool.false_eq_true, if_false]
  cases hS : (t.transactionStatus == "SUCCESS") <;>
    simp only [hS, if_true, if_false, Bool.false_eq_true]
  · obtain ⟨db3, hp, hsh⟩ :=
      process_insert_shape today db (mapFailedData t) pr hqr hex
    rw [hp]
    exact ⟨db3, rfl, by rw [hsh]; simp⟩
  · obtain ⟨db3, hp, hsh⟩ :=
      process_insert_shape today db (mapSuccessData t) pr hqr hex
    rw [hp]
    exact ⟨db3, rfl, by rw [hsh]; simp⟩

/-- Witness for C10 at `okTxn` against `freshDb` with a failing lookup. -/
theorem lookup_error_proceeds_to_insert_witness :
    ∃ db2, deliverCore (fun _ _ => .error "connection lost") "2026-10-12"
        freshDb okTxn = (.processed "TXN1", db2) ∧
      db2.qr_transactions.length = freshDb.qr_transactions.length + 1 :=
  lookup_error_proceeds_to_insert.2 "connection lost" "2026-10-12" freshDb
    okTxn ("QR001", 1) (by decide) (by decide)

/-- The record `LocalTransactionStore.saveTransaction` stores for `okTxn`
(clock fixed at `nowMs = "1760300000000"`,
`nowIso = "2026-10-12T10:00:00.000Z"`). -/
def okStored : LocalStoredTxn :=
  { id := 1, transactionId := "TXN1", qrId := "QR0011",
    merchantName := "MName", merchantTxnId := "STQQR0011234567890123",
    bankRRN := "RRN1", amount := .fin 150, status := "SUCCESS",
    payerVPA := "payer@upi", payerName := "Payer", mobileNumber := "9999",
    transactionDate := "20261012", settlementAmount := .fin 150,
    settlementDate := "20261012", paymentMode := "UPI",
    statusDescription := "Success", mcc := "5411", tipAmount := .fin 0,
    convenienceFee := .fin 0, netAmount := .nan, checksum := "DEADBEEF",
    createdAt := "2026-10-12T10:00:00.000Z" }

/-- **C3 (counterexample).** In development mode the checksum is never
verified: a callback whose checksum does not match the recomputed digest is
accepted, answered with HTTP 200, and written to the local transaction
store. -/
theorem dev_mode_skips_checksum_validation :
    validateChecksum (checksumValues okTxn) okTxn.checksum "testkey" = false ∧
    handleWebhook ⟨true, some "testkey"⟩ (fun c _ => .ok c)
        (fun _ _ => .ok false) (fun _ => 0) "1760300000000"
        "2026-10-12T10:00:00.000Z" "2026-10-12" st0 ⟨some okPlain⟩ =
      (.okProcessed "TXN1", { db := freshDb, localStore := [okStored] }) := by
  exact ⟨by decide, by decide⟩

/-- **C3 (amended).** Outside development mode, when the request carries a
non-empty encrypted payload, a checksum mismatch on the parsed record makes
the handler answer with the checksum error (an HTTP 500, via the generic
catch block) and leave the system state untouched — nothing is written; the
comparison itself is plain string equality. -/
theorem checksum_mismatch_rejected_in_production
    (key ct pt : String) (t : HDFCTransaction)
    (decrypt : String → String → Except String String)
    (dupLookup : String → String → Except String Bool)
    (ageHours : String → ℚ) (nowMs nowIso today : String) (st : SysState)
    (hct : (ct == "") = false)
    (hdec : decrypt ct key = .ok pt)
    (hparse : parseHDFCResponse pt = .ok t)
    (hmis : validateChecksum (checksumValues t) t.checksum key = false) :
    handleWebhook ⟨false, some key⟩ decrypt dupLookup ageHours nowMs nowIso
        today st ⟨some ct⟩ =
      (.serverError "Invalid checksum - possible data tampering", st) := by
  rw [handleWebhook]
  simp only [hct, hdec, hparse, hmis, Bool.false_eq_true, if_false,
    Bool.not_false, Bool.and_self, if_true]

/-- Witness for C3's amended theorem at `okPlain` in production mode. -/
theorem checksum_mismatch_rejected_in_production_witness :
    handleWebhook ⟨false, some "testkey"⟩ (fun c _ => .ok c)
        (fun _ _ => .ok false) (fun _ => 0) "1760300000000"
        "2026-10-12T10:00:00.000Z" "2026-10-12" st0 ⟨some okPlain⟩ =
      (.serverError "Invalid checksum - possible data tampering", st0) :=
  checksum_mismatch_rejected_in_production "testkey" okPlain okPlain okTxn
    (fun c _ => .ok c) (fun _ _ => .ok false) (fun _ => 0) "1760300000000"
    "2026-10-12T10:00:00.000Z" "2026-10-12" st0 (by decide) rfl (by decide)
    (by decide)

/-- **C8 (counterexample).** With no merchant key configured the service
still accepts and handles each webhook request: a request carrying data gets
an individual HTTP 500 `'Merchant key not configured'` answer, while
requests with a missing or empty `encryptedData` still receive the ordinary
400 — there is no startup-time refusal of webhook traffic. -/
theorem missing_key_fails_per_request :
    handleWebhook ⟨false, none⟩ (fun c _ => .ok c) (fun _ _ => .ok false)
        (fun _ => 0) "1760300000000" "2026-10-12T10:00:00.000Z" "2026-10-12"
        st0 ⟨some "CIPHERTEXT"⟩ =
      (.serverError "Merchant key not configured", st0) ∧
    handleWebhook ⟨false, none⟩ (fun c _ => .ok c) (fun _ _ => .ok false)
        (fun _ => 0) "1760300000000" "2026-10-12T10:00:00.000Z" "2026-10-12"
        st0 ⟨none⟩ =
      (.badRequest "Missing encrypted data", st0) ∧
    handleWebhook ⟨false, none⟩ (fun c _ => .ok c) (fun _ _ => .ok false)
        (fun _ => 0) "1760300000000" "2026-10-12T10:00:00.000Z" "2026-10-12"
        st0 ⟨some ""⟩ =
      (.badRequest "Missing encrypted data", st0) :=
  ⟨rfl, rfl, rfl⟩

/-- **C8 (amended).** When the merchant key is missing, every webhook
request is failed individually at request time — 400 when `encryptedData`
is absent or empty (the route's `if (!encryptedData)` truthiness gate fires
before the key is read), otherwise 500 `'Merchant key not configured'` —
and the state is never touched; the key is only ever read inside the
request handler, never at startup. -/
theorem missing_key_request_time_behavior :
    ∀ (d : Bool) (decrypt : String → String → Except String String)
      (dupLookup : String → String → Except String Bool)
      (ageHours : String → ℚ) (nowMs nowIso today : String) (st : SysState)
      (body : ReqBody),
      handleWebhook ⟨d, none⟩ decrypt dupLookup ageHours nowMs nowIso today
          st body =
        ((match body.encryptedData with
          | none => Response.badRequest "Missing encrypted data"
          | some ed =>
            if ed == "" then Response.badRequest "Missing encrypted data"
            else Response.serverError "Merchant key not configured"),
         st) := by
  intro d decrypt dupLookup ageHours nowMs nowIso today st body
  obtain ⟨ed⟩ := body
  cases ed with
  | none => rfl
  | some s =>
    rw [handleWebhook]
    dsimp only
    split <;> rfl

/-- A committed success row for `TXN1`, as the first delivery of `okTxn`
persists it. -/
def succRec : TxnRecord :=
  { transaction_id := "TXN1", qr_code_id := 1, merchant_id := "M1",
    amount := .fin 150, customer_vpa := "payer@upi", customer_name := "Payer",
    reference_number := "STQQR0011234567890123",
    bank_reference_number := "RRN1", status := "success",
    payment_method := "UPI", settlement_status := some "pending",
    refund_amount := none }

/-- `freshDb` after `TXN1` was recorded with terminal status `success`. -/
def dbWithSuccess : DB := { freshDb with qr_transactions := [succRec] }

/-- A redelivered `failed` callback for the already-successful `TXN1`. -/
def failW : WebhookData :=
  { transaction_id := "TXN1", merchant_id := "M1", qr_identifier := "QR001",
    amount := .fin 150, customer_vpa := "payer@upi",
    customer_name := "Payer", reference_number := "STQQR0011234567890123",
    bank_reference_number := "RRN2", status := "failed",
    payment_method := "UPI", failure_reason := some "Debit has failed" }

/-- **C2 (counterexample).** A `failed` callback for a transaction already
recorded as `success` is not rejected: `processTransactionWebhook` commits
and overwrites the terminal `success` status with `failed` — a transition
outside the claimed state machine. -/
theorem webhook_overwrites_terminal_success :
    succRec.status = "success" ∧
    (processTransactionWebhook "2026-10-12" dbWithSuccess failW).isOk =
      true ∧
    (processTransactionWebhook "2026-10-12" dbWithSuccess failW).toOption.map
        (fun p => p.1.qr_transactions.map TxnRecord.status) =
      some ["failed"] := by
  exact ⟨rfl, by decide, by decide⟩

/-- **C2 (amended).** The webhook path performs no transition validation at
all: whenever a row with the incoming transaction id exists, its status is
overwritten with the incoming status, whatever the old one was.  Only the
refund flow is gated: `initiateRefund` fails unless a row with the given id
is currently in status `success`, and on success moves it to `refunded`
(full) or `partial_refunded` (partial). -/
theorem status_overwrite_and_refund_gating :
    (∀ (today : String) (db : DB) (w : WebhookData) (pr : String × ℕ),
      db.qr_codes.find? (fun p => p.1 == w.qr_identifier) = some pr →
      db.qr_transactions.any
          (fun r => r.transaction_id == w.transaction_id) = true →
      ∃ db3 rid, processTransactionWebhook today db w = .ok (db3, rid) ∧
        ∀ r ∈ db3.qr_transactions,
          (r.transaction_id == w.transaction_id) = true →
          r.status = w.status) ∧
    (∀ (db : DB) (tid : String) (rd : RefundData) (ib rid : String),
      db.qr_transactions.find?
          (fun r => r.transaction_id == tid && r.status == "success") =
        none →
      initiateRefund db tid rd ib rid =
        .error "Transaction not found or not eligible for refund") ∧
    (∀ (db : DB) (tid : String) (rd : RefundData) (ib rid : String)
        (db2 : DB) (x : String),
      initiateRefund db tid rd ib rid = .ok (db2, x) →
      ∀ r ∈ db2.qr_transactions, (r.transaction_id == tid) = true →
        r.status =
          if rd.refund_type == "full" then "refunded"
          else "partial_refunded") := by
  refine ⟨?_, ?_, ?_⟩
  · intro today db w pr hqr hex
    rw [processTransactionWebhook, hqr]
    simp only [hex, if_true]
    refine ⟨_, _, rfl, ?_⟩
    split <;>
    · simp only [updateDailyStats_qr_transactions]
      intro r hr htid
      simp only [List.mem_map] at hr
      obtain ⟨r0, -, rfl⟩ := hr
      by_cases hb : (r0.transaction_id == w.transaction_id) = true
      · rw [if_pos hb]
      · rw [if_neg hb] at htid
        exact absurd htid hb
  · intro db tid rd ib rid hfind
    rw [initiateRefund, hfind]
  · intro db tid rd ib rid db2 x h
    rw [initiateRefund] at h
    rcases hf : db.qr_transactions.find?
        (fun r => r.transaction_id == tid && r.status == "success")
      with _ | txn
    · rw [hf] at h
      exact Except.noConfusion h
    · rw [hf] at h
      dsimp only at h
      by_cases hg : jsGt (if rd.refund_type == "full" then txn.amount
          else rd.refund_amount) txn.amount = true
      · rw [if_pos hg] at h
        exact Except.noConfusion h
      · rw [if_neg hg] at h
        simp only [Except.ok.injEq, Prod.mk.injEq] at h
        obtain ⟨hdb, -⟩ := h
        subst hdb
        intro r hr htid
        simp only [List.mem_map] at hr
        obtain ⟨r0, -, rfl⟩ := hr
        by_cases hb : (r0.transaction_id == tid) = true
        · rw [if_pos hb]
        · rw [if_neg hb] at htid
          exact absurd htid hb

/-- A full-refund request. -/
def rdFull : RefundData :=
  { refund_type := "full", refund_amount := .fin 150,
    reason := "customer request" }

/-- `dbWithSuccess` after a full refund of `TXN1`. -/
def refundedDb : DB :=
  { freshDb with
      qr_transactions := [{ succRec with
        status := "refunded", refund_amount := some (.fin 150) }]
      qr_refund_audit := [⟨"TXN1", "REF1", .fin 150, .fin 150, "full",
        "admin", "customer request", "initiated"⟩] }

/-- Witness for C2 instantiating all three parts: the overwrite at
`dbWithSuccess`/`failW`, the ineligible refund against `freshDb`, and the
full refund of the success row. -/
theorem status_overwrite_and_refund_gating_witness :
    (∃ db3 rid,
      processTransactionWebhook "2026-10-12" dbWithSuccess failW =
        .ok (db3, rid) ∧
      ∀ r ∈ db3.qr_transactions,
        (r.transaction_id == failW.transaction_id) = true →
        r.status = failW.status) ∧
    initiateRefund freshDb "TXN1" rdFull "admin" "REF1" =
      .error "Transaction not found or not eligible for refund" ∧
    (∀ r ∈ refundedDb.qr_transactions, (r.transaction_id == "TXN1") = true →
      r.status =
        if rdFull.refund_type == "full" then "refunded"
        else "partial_refunded") :=
  ⟨status_overwrite_and_refund_gating.1 "2026-10-12" dbWithSuccess failW
      ("QR001", 1) (by decide) (by decide),
   status_overwrite_and_refund_gating.2.1 freshDb "TXN1" rdFull "admin"
      "REF1" (by decide),
   status_overwrite_and_refund_gating.2.2 dbWithSuccess "TXN1" rdFull
      "admin" "REF1" refundedDb "REF1" (by decide)⟩

/-- `successCount` ignores the webhook-event log. -/
theorem successCount_events (X : DB) (e : List WebhookEvent)
    (key : StatsKey) :
    successCount ⟨X.qr_codes, X.qr_transactions, X.qr_daily_stats, e,
      X.qr_refund_audit⟩ key = successCount X key := rfl

/-- `successCount` ignores the transaction table. -/
theorem successCount_txns (X : DB) (ts : List TxnRecord) (key : StatsKey) :
    successCount ⟨X.qr_codes, ts, X.qr_daily_stats, X.qr_webhook_events,
      X.qr_refund_audit⟩ key = successCount X key := rfl

/-- A first-delivery insert with status `success` bumps the merchant's daily
success counter by exactly one. -/
theorem process_insert_success_stats (today : String) (db : DB)
    (w : WebhookData) (pr : String × ℕ)
    (hqr : db.qr_codes.find? (fun p => p.1 == w.qr_identifier) = some pr)
    (hex : db.qr_transactions.any
      (fun r => r.transaction_id == w.transaction_id) = false)
    (hsucc : (w.status == "success") = true) :
    ∀ db3 rid, processTransactionWebhook today db w = .ok (db3, rid) →
      successCount db3 ⟨w.merchant_id, pr.2, today⟩ =
        successCount db ⟨w.merchant_id, pr.2, today⟩ + 1 := by
  intro db3 rid h
  rw [processTransactionWebhook, hqr] at h
  simp only [hex, Bool.false_eq_true, if_false, hsucc, if_true] at h
  simp only [Except.ok.injEq, Prod.mk.injEq] at h
  obtain ⟨hdb, -⟩ := h
  subst hdb
  rw [successCount_events, updateDailyStats_successCount, successCount_txns]

/-- Sequential redelivery with a working duplicate lookup is idempotent:
the second delivery observes the committed row, answers `duplicate`, changes
nothing, and the success counter was bumped exactly once. -/
theorem sequential_redelivery_idempotent (today : String) (db : DB)
    (t : HDFCTransaction) (pr : String × ℕ)
    (hqr : db.qr_codes.find?
      (fun p => p.1 == extractQRIdentifier t.merchantTxnId) = some pr)
    (hnew : db.qr_transactions.any
      (fun r => r.transaction_id == t.transactionId) = false)
    (hst : (t.transactionStatus == "SUCCESS") = true) :
    ∃ db1, deliverCore (dbLookupOf db) today db t =
        (.processed t.transactionId, db1) ∧
      deliverCore (dbLookupOf db1) today db1 t =
        (.duplicate t.transactionId, db1) ∧
      successCount db1 ⟨t.merchantId, pr.2, today⟩ =
        successCount db ⟨t.merchantId, pr.2, today⟩ + 1 := by
  have hdup : getTransactionDetails db t.transactionId t.merchantId =
      false := by
    rw [getTransactionDetails]
    refine List.any_eq_false.mpr ?_
    intro r hr
    have h1 := any_false_mem hnew hr
    simp [h1]
  obtain ⟨db3, hp, hsh⟩ :=
    process_insert_shape today db (mapSuccessData t) pr hqr hnew
  have hstats :=
    process_insert_success_stats today db (mapSuccessData t) pr hqr hnew
      rfl db3 _ hp
  have hdup2 : getTransactionDetails db3 t.transactionId t.merchantId =
      true := by
    rw [getTransactionDetails, hsh, List.any_append]
    simp [mapSuccessData]
  refine ⟨db3, ?_, ?_, hstats⟩
  · rw [deliverCore]
    simp only [dbLookupOf, checkDuplicate, hdup, Bool.false_eq_true,
      if_false, hst, if_true, hp]
  · rw [deliverCore]
    simp only [dbLookupOf, checkDuplicate, hdup2, if_true]

/-- The state committed by the first of two racing deliveries of `okTxn`. -/
def raceDb1 : DB :=
  (deliverCore (dbLookupOf freshDb) "2026-10-12" freshDb okTxn).2

/-- **C1 (counterexample).** Two concurrent deliveries of the same validated
success payload, both of whose duplicate checks read the state `freshDb`
before either commit (the lookup argument is that snapshot): the second
delivery also takes the processing path — `processTransactionWebhook` then
finds the existing row, updates it, and calls `updateDailyStats` again — so
the merchant's daily success counter ends at 2 for a single transaction,
not 1. -/
theorem concurrent_redelivery_double_counts :
    (deliverCore (dbLookupOf freshDb) "2026-10-12" freshDb okTxn).1 =
      .processed "TXN1" ∧
    successCount raceDb1 ⟨"M1", 1, "2026-10-12"⟩ = 1 ∧
    (deliverCore (dbLookupOf freshDb) "2026-10-12" raceDb1 okTxn).1 =
      .processed "TXN1" ∧
    successCount
        (deliverCore (dbLookupOf freshDb) "2026-10-12" raceDb1 okTxn).2
        ⟨"M1", 1, "2026-10-12"⟩ = 2 := by
  exact ⟨by decide, by decide, by decide, by decide⟩

/-- Witness for C1's amended theorem at `okTxn` against `freshDb`. -/
theorem sequential_redelivery_idempotent_witness :
    ∃ db1, deliverCore (dbLookupOf freshDb) "2026-10-12" freshDb okTxn =
        (.processed "TXN1", db1) ∧
      deliverCore (dbLookupOf db1) "2026-10-12" db1 okTxn =
        (.duplicate "TXN1", db1) ∧
      successCount db1 ⟨"M1", 1, "2026-10-12"⟩ =
        successCount freshDb ⟨"M1", 1, "2026-10-12"⟩ + 1 :=
  sequential_redelivery_idempotent "2026-10-12" freshDb okTxn ("QR001", 1)
    (by decide) (by decide) rfl

end SabPaisa
